import Mathlib

/-!
Verification development for the gym-membership backend.

The definitions below are a shallow embedding of the JavaScript source:

* `src/whatsappClient.js` — the WhatsApp session manager
  (`initializeWhatsAppClient`, `getWhatsAppClient`, and the
  `connection.update` event handler);
* `src/unnamed/part_000` — the authenticated Express server: the
  `POST /membership` route, the OTP routes `POST /request_phone_change`
  and `PUT /update_phone_number` backed by Redis;
* `src/index.js` — the unauthenticated variant of `POST /membership`.

JavaScript numbers are modelled as rationals, `Math.random()` as an
arbitrary rational in the half-open unit interval, the Redis store as an
association list from string keys to values, and the Prisma tables as
lists of records.  Delivery of a WhatsApp message is recorded by
appending the recipient address (and, for the OTP routes, the text) to a
`sent` log; a send failure is a boolean input of the route function,
mirroring the promise rejection of `sendMessage`.
-/

namespace GymBackend

/-! ## JavaScript values and truthiness -/

/-- A JavaScript value as it can appear in a JSON request body.
Numeric strings and other coercions feeding `Number` / `parseFloat`
are not modelled; the theorems supply already-numeric inputs. -/
inductive JSVal where
  | undef
  | null
  | bool (b : Bool)
  | num (q : ℚ)
  | str (s : String)
deriving DecidableEq, Repr

/-- JavaScript truthiness of a `JSVal` (`!v` in the source negates this).
`undefined`, `null`, `false`, `0` and the empty string are falsy. -/
def truthy : JSVal → Bool
  | .undef => false
  | .null => false
  | .bool b => b
  | .num q => !(q == 0)
  | .str s => !(s == "")

/-- JavaScript `Number(v)` on the shapes the API uses; string
coercion is not modelled (theorems supply numeric fields). -/
def numberJs : JSVal → ℚ
  | .num q => q
  | .bool b => if b then 1 else 0
  | .null => 0
  | _ => 0

/-- JavaScript `parseFloat(v)` on the shapes the claims use. -/
def parseFloatJs : JSVal → ℚ
  | .num q => q
  | _ => 0

/-- Reads a `JSVal` as a string, as `toString()` does on a string. -/
def jsAsString : JSVal → String
  | .str s => s
  | _ => ""

/-- Reads a `JSVal` as a boolean, for the `personal_training` field. -/
def jsAsBool : JSVal → Bool
  | .bool b => b
  | _ => false

/-! ## Session manager (`src/whatsappClient.js`) -/

/-- One invocation of `initializeWhatsAppClient`: either the body throws
before the module-level `client` variable is assigned (the awaited
`useMultiFileAuthState` call or `makeWASocket` fails), or it completes
and assigns the fresh socket handle to `client`. -/
inductive InitStep where
  | fails
  | succeeds (sock : Nat)
deriving DecidableEq, Repr

/-- Effect of one `initializeWhatsAppClient` call on the module-level
`client` variable: a failing call leaves it unchanged, a successful call
replaces it with the new socket. -/
def runInit (c : Option Nat) (step : InitStep) : Option Nat :=
  match step with
  | .fails => c
  | .succeeds s => some s

/-- The `client` variable after a history of `initializeWhatsAppClient`
invocations, starting from the uninitialized state. -/
def runInits (steps : List InitStep) : Option Nat :=
  steps.foldl runInit none

/-- Whether an invocation of `initializeWhatsAppClient` completed. -/
def isSuccess : InitStep → Bool
  | .fails => false
  | .succeeds _ => true

/-- The source of `getWhatsAppClient`: throws when `client` is unset,
otherwise returns the current handle. -/
def getWhatsAppClient (c : Option Nat) : Except String Nat :=
  match c with
  | none => .error "WhatsApp client is not initialized"
  | some s => .ok s

/-- Baileys `DisconnectReason.loggedOut`. -/
def disconnectReasonLoggedOut : Nat := 401

/-- A `connection.update` event: the `connection` field, the
`lastDisconnect?.error?.output?.statusCode` chain (with `none` for any
missing link), and the optional `qr` payload. -/
structure ConnectionUpdate where
  connection : Option String
  statusCode : Option Nat
  qr : Option String
deriving DecidableEq, Repr

/-- Observable effects of one run of the `connection.update` handler:
whether a QR code was rendered, and the delays (in milliseconds) of the
`initializeWhatsAppClient` re-invocations it scheduled via `setTimeout`. -/
structure HandlerEffects where
  qrShown : Bool
  scheduledReconnects : List Nat
deriving DecidableEq, Repr

/-- The `connection.update` handler registered by
`initializeWhatsAppClient`: renders a QR code when one is present, and on
`connection === "close"` schedules a single reconnect after 3000 ms
unless the disconnect status code is `DisconnectReason.loggedOut`. -/
def onConnectionUpdate (u : ConnectionUpdate) : HandlerEffects :=
  { qrShown := u.qr.isSome
    scheduledReconnects :=
      if u.connection == some "close" then
        if !(u.statusCode == some disconnectReasonLoggedOut) then [3000] else []
      else [] }

/-! ## Recipient address formation -/

/-- Whether the character list starts with the given pattern. -/
def startsWithChars : List Char → List Char → Bool
  | _, [] => true
  | [], _ :: _ => false
  | c :: cs, d :: ds => c == d && startsWithChars cs ds

/-- Whether the pattern occurs as a contiguous run of the character
list. -/
def containsChars : List Char → List Char → Bool
  | [], sub => sub.isEmpty
  | c :: cs, sub => startsWithChars (c :: cs) sub || containsChars cs sub

/-- JavaScript `s.includes(sub)`: substring containment. -/
def strIncludes (s sub : String) : Bool :=
  containsChars s.data sub.data

/-- Customer-notification recipient in `POST /membership`
(src/unnamed/part_000): the raw number is passed through when it already
contains the domain suffix, otherwise it is wrapped. -/
def customerWaNumber (p : String) : String :=
  if strIncludes p "@s.whatsapp.net" then p
  else "91" ++ p ++ "@s.whatsapp.net"

/-- Owner-notification recipient in `POST /membership`: the template
literal wraps the stored number unconditionally. -/
def ownerWaNumber (p : String) : String :=
  "91" ++ p ++ "@s.whatsapp.net"

/-- OTP-delivery recipient in `POST /request_phone_change`: the current
number is wrapped unconditionally. -/
def otpDeliveryWaNumber (p : String) : String :=
  "91" ++ p ++ "@s.whatsapp.net"

/-- Confirmation recipient in `PUT /update_phone_number`: the new number
is wrapped unconditionally. -/
def confirmationWaNumber (p : String) : String :=
  "91" ++ p ++ "@s.whatsapp.net"

/-! ## OTP workflow (src/unnamed/part_000, Redis endpoints) -/

/-- A `gym_owner` row of the Prisma schema. -/
structure GymOwner where
  id : Nat
  name : String
  phone_number : String
  email : String
  password : String
  gym_name : String
deriving DecidableEq, Repr

/-- The object `JSON.stringify`-ed into Redis by
`POST /request_phone_change` (and parsed back by
`PUT /update_phone_number`); the stringify/parse round trip is the
identity on this two-field record, so the record itself is stored. -/
structure OtpData where
  otp : String
  new_phone_number : String
deriving DecidableEq, Repr

/-- A Redis value together with the `EX` expiry (seconds) it was
set with. -/
structure RedisEntry where
  data : OtpData
  ttlSeconds : Nat
deriving DecidableEq, Repr

/-- The Redis store: an association from string keys to entries, with at
most one entry per key after every `set`. -/
def RedisStore := List (String × RedisEntry)

instance : DecidableEq RedisStore := by
  unfold RedisStore
  infer_instance

/-- Redis `SET key value EX ttl`: replaces any entry at the key. -/
def redisSet (s : RedisStore) (k : String) (v : RedisEntry) : RedisStore :=
  (k, v) :: s.filter (fun p => !(p.1 == k))

/-- Redis `GET key`. -/
def redisGet (s : RedisStore) (k : String) : Option RedisEntry :=
  (s.find? (fun p => p.1 == k)).map (fun p => p.2)

/-- Redis `DEL key`. -/
def redisDel (s : RedisStore) (k : String) : RedisStore :=
  s.filter (fun p => !(p.1 == k))

/-- The key `otp:${gym_owner_id}` both OTP routes use. -/
def redisKey (gid : Nat) : String :=
  "otp:" ++ toString gid

/-- State touched by the two OTP routes: the `gym_owner` table, the
Redis store, the log of delivered WhatsApp messages (address, text), and
whether the WhatsApp client is available and sends succeed (`waOk`
false models `getWhatsAppClient` throwing or `sendMessage` rejecting). -/
structure OtpState where
  owners : List GymOwner
  redis : RedisStore
  sent : List (String × String)
  waOk : Bool
deriving DecidableEq

/-- The value of `Math.floor(100000 + Math.random() * 900000)` when
`Math.random()` returns `r`. -/
def genOtp (r : ℚ) : ℤ :=
  ⌊(100000 : ℚ) + r * 900000⌋

/-- The generated OTP string, `Math.floor(...).toString()`. -/
def otpString (r : ℚ) : String :=
  toString (genOtp r)

/-- Outcome of `POST /request_phone_change`. -/
inductive RequestResult where
  | ownerNotFound
  | phoneInUse
  | sendFailed
  | ok
deriving DecidableEq, Repr

/-- The text of the OTP delivery message. -/
def otpMessageText (otp np : String) : String :=
  "Your OTP for phone number change is: " ++ otp ++
    ". Please use it to verify your new phone number: " ++ np

/-- The `POST /request_phone_change` handler body: looks up the
requesting owner, rejects a new number already used by another account,
generates a 6-digit code from the random draw `r`, stores it with the
pending number in Redis under the requester-scoped key with a 600-second
expiry, and delivers the code to the CURRENT number.  A send failure
(`waOk = false`) surfaces as an error after the Redis write. -/
def requestPhoneChange (st : OtpState) (gid : Nat) (np : String) (r : ℚ) :
    RequestResult × OtpState :=
  match st.owners.find? (fun o => o.id == gid) with
  | none => (.ownerNotFound, st)
  | some gymOwner =>
    if (st.owners.find? (fun o => o.phone_number == np && !(o.id == gid))).isSome then
      (.phoneInUse, st)
    else
      let otp := otpString r
      let redis2 := redisSet st.redis (redisKey gid) ⟨⟨otp, np⟩, 10 * 60⟩
      if st.waOk then
        (.ok,
         { st with
            redis := redis2
            sent := st.sent ++
              [(otpDeliveryWaNumber gymOwner.phone_number, otpMessageText otp np)] })
      else
        (.sendFailed, { st with redis := redis2 })

/-- Outcome of `PUT /update_phone_number`. -/
inductive UpdateResult where
  | noPending
  | invalidOtp
  | serverError
  | sendFailed
  | ok (owner : GymOwner)
deriving DecidableEq, Repr

/-- The text of the confirmation message sent to the new number. -/
def confirmationText : String :=
  "Your phone number has been successfully updated in your gym owner account."

/-- The `PUT /update_phone_number` handler body: reads the stored OTP
record, failing with `noPending` when absent or expired; failing with
`invalidOtp` on a mismatch; on a match it updates the owner row, deletes
the Redis record and sends a confirmation to the NEW number.  When the
owner row is missing the Prisma update throws before any write
(`serverError`); when the send fails (`waOk = false`) the update and the
delete have already happened (`sendFailed`). -/
def updatePhoneNumber (st : OtpState) (gid : Nat) (otp : String) :
    UpdateResult × OtpState :=
  match redisGet st.redis (redisKey gid) with
  | none => (.noPending, st)
  | some entry =>
    if !(entry.data.otp == otp) then
      (.invalidOtp, st)
    else
      match st.owners.find? (fun o => o.id == gid) with
      | none => (.serverError, st)
      | some ow =>
        let np := entry.data.new_phone_number
        let owners2 := st.owners.map
          (fun o => if o.id == gid then { o with phone_number := np } else o)
        let redis2 := redisDel st.redis (redisKey gid)
        if st.waOk then
          (.ok { ow with phone_number := np },
           { st with
              owners := owners2
              redis := redis2
              sent := st.sent ++ [(confirmationWaNumber np, confirmationText)] })
        else
          (.sendFailed, { st with owners := owners2, redis := redis2 })

/-! ## Calendar dates and `setMonth` -/

/-- A calendar date, standing for a JavaScript `Date` at midnight: the
routes only construct dates from parsed date strings and compare or
month-shift them. -/
structure JsDate where
  year : Int
  month : Nat
  day : Nat
deriving DecidableEq, Repr

/-- Day count of the (0-based) month, with the Gregorian leap rule. -/
def daysInMonth (y : Int) (m : Nat) : Nat :=
  if m == 1 then
    if y % 4 == 0 && (!(y % 100 == 0) || y % 400 == 0) then 29 else 28
  else if m == 3 || m == 5 || m == 8 || m == 10 then 30
  else 31

/-- JavaScript
`new Date(new Date(s).setMonth(new Date(s).getMonth() + k))`:
the month index is advanced by `k` and normalized, rolling excess months
into the year and an out-of-range day-of-month into the next month (a
31st mapped into a shorter month overflows by at most three days, so a
single roll suffices). -/
def jsAddMonths (d : JsDate) (k : Nat) : JsDate :=
  let t := d.month + k
  let y := d.year + (t / 12 : Nat)
  let m := t % 12
  let dim := daysInMonth y m
  if d.day > dim then
    if m == 11 then ⟨y + 1, 0, d.day - dim⟩ else ⟨y, m + 1, d.day - dim⟩
  else ⟨y, m, d.day⟩

/-- Date comparison `a < b` on normalized dates (the timestamp order). -/
def jsDateLt (a b : JsDate) : Bool :=
  a.year < b.year ||
    (a.year == b.year &&
      (a.month < b.month || (a.month == b.month && a.day < b.day)))

/-! ## Membership routes (src/unnamed/part_000 and src/index.js) -/

/-- A `customer` row of the Prisma schema. -/
structure Customer where
  id : Nat
  gym_id : String
  gym_owner_id : Nat
  name : String
  phone_number : String
  status : Bool
  end_date : Option JsDate
deriving DecidableEq, Repr

/-- A `membership` row of the Prisma schema (the unauthenticated route
never sets `payment_details`). -/
structure Membership where
  customer_id : Nat
  duration : Nat
  start_date : JsDate
  bill_date : JsDate
  payment_mode : String
  payment_details : Option String
  amount : ℚ
  workout_type : String
  personal_training : Bool
deriving DecidableEq, Repr

/-- The relational store seen by the membership routes, plus the log of
WhatsApp recipient addresses of delivered notifications (message bodies
are long formatted templates and are not claimed about). -/
structure Db where
  owners : List GymOwner
  customers : List Customer
  memberships : List Membership
  nextCustomerId : Nat
  waSent : List String
deriving DecidableEq

/-- The request body of `POST /membership`.  `start_date` is carried as
the calendar date `new Date(start_date)` parses to, with `none` for a
missing or unparseable field; date-string parsing itself is a JS
builtin outside the repository.  `gym_owner_id` is read only by the
unauthenticated route, `payment_details` only by the authenticated one. -/
structure MembershipBody where
  gym_owner_id : JSVal
  gym_id : JSVal
  phone_number : JSVal
  name : JSVal
  duration : JSVal
  start_date : Option JsDate
  payment_mode : JSVal
  amount : JSVal
  workout_type : JSVal
  personal_training : JSVal
  payment_details : JSVal
deriving DecidableEq

/-- Response of a membership route. -/
inductive MembershipResp where
  | missingFields
  | paymentDetailsRequired
  | startBeforeEndWarning
  | success (m : Membership)
deriving DecidableEq, Repr

/-- Whether the response is the `{ success: true, membership }` body. -/
def isSuccessResp : MembershipResp → Bool
  | .success _ => true
  | _ => false

/-- The required-fields guard of the authenticated `POST /membership`:
every listed field must be truthy, except `personal_training`, which is
only compared against `undefined`. -/
def missingRequiredAuth (r : MembershipBody) : Bool :=
  !(truthy r.gym_id) || !(truthy r.phone_number) || !(truthy r.name) ||
    !(truthy r.duration) || !(r.start_date.isSome) ||
    !(truthy r.payment_mode) || !(truthy r.amount) ||
    !(truthy r.workout_type) || r.personal_training == JSVal.undef

/-- The required-fields guard of the unauthenticated `POST /membership`
(src/index.js), which additionally requires `gym_owner_id`. -/
def missingRequiredUnauth (r : MembershipBody) : Bool :=
  !(truthy r.gym_owner_id) || missingRequiredAuth r

/-- Validation phase of the authenticated route: the required-fields
guard, then the payment-details guard for non-cash payments. -/
def validateAuth (r : MembershipBody) : Option MembershipResp :=
  if missingRequiredAuth r then some .missingFields
  else if !(jsAsString r.payment_mode == "cash") && !(truthy r.payment_details) then
    some .paymentDetailsRequired
  else none

/-- `Number(duration)` truncated as `setMonth` truncates its argument. -/
def durationMonths (r : MembershipBody) : Nat :=
  ((numberJs r.duration).floor).toNat

/-- `Number(gym_owner_id)` as the integer row id. -/
def bodyGymOwnerId (r : MembershipBody) : Nat :=
  ((numberJs r.gym_owner_id).floor).toNat

/-- The customer lookup both routes perform:
`findFirst where gym_owner_id and gym_id`. -/
def findCustomer (db : Db) (gid : Nat) (gymId : String) : Option Customer :=
  db.customers.find? (fun c => c.gym_owner_id == gid && c.gym_id == gymId)

/-- The persistence phase shared by both routes: create
the customer when absent (active, with the computed end date) or update
the existing row to active with the computed end date, then append the
membership transaction.  Returns the response membership and the new
business records. -/
def persistMembership (db : Db) (gid : Nat) (r : MembershipBody)
    (startD : JsDate) (now : JsDate) (withDetails : Bool) :
    Membership × Db :=
  let newEnd := jsAddMonths startD (durationMonths r)
  let gymIdS := jsAsString r.gym_id
  let (cust, customers2, nextId2) :=
    match findCustomer db gid gymIdS with
    | none =>
      let c : Customer :=
        { id := db.nextCustomerId
          gym_id := gymIdS
          gym_owner_id := gid
          name := jsAsString r.name
          phone_number := jsAsString r.phone_number
          status := true
          end_date := some newEnd }
      (c, db.customers ++ [c], db.nextCustomerId + 1)
    | some c0 =>
      let c := { c0 with status := true, end_date := some newEnd }
      (c,
       db.customers.map (fun (c1 : Customer) => if c1.id == c0.id then
         { c1 with status := true, end_date := some newEnd } else c1),
       db.nextCustomerId)
  let m : Membership :=
    { customer_id := cust.id
      duration := durationMonths r
      start_date := startD
      bill_date := now
      payment_mode := jsAsString r.payment_mode
      payment_details :=
        if withDetails && truthy r.payment_details then
          some (jsAsString r.payment_details)
        else none
      amount := parseFloatJs r.amount
      workout_type := jsAsString r.workout_type
      personal_training := jsAsBool r.personal_training }
  (m, { db with
          customers := customers2
          memberships := db.memberships ++ [m]
          nextCustomerId := nextId2 })

/-- Recipient addresses actually delivered by the messaging block of the
authenticated route: nothing when the owner row is missing (the property
access throws inside the try) or the client is unavailable; the customer
message alone when the owner send fails; both otherwise.  A failure of
the first send aborts the block before the second. -/
def membershipSends (db : Db) (gid : Nat) (r : MembershipBody)
    (waOk custSendOk ownerSendOk : Bool) : List String :=
  match db.owners.find? (fun o => o.id == gid) with
  | none => []
  | some gOwner =>
    if waOk then
      if custSendOk then
        customerWaNumber (jsAsString r.phone_number) ::
          (if ownerSendOk then [ownerWaNumber gOwner.phone_number] else [])
      else []
    else []

/-- The authenticated `POST /membership` handler
(src/unnamed/part_000): validation, persistence, then best-effort
messaging whose failures are caught and logged, never failing the
response. -/
def postMembership (db : Db) (now : JsDate) (gid : Nat) (r : MembershipBody)
    (waOk custSendOk ownerSendOk : Bool) : MembershipResp × Db :=
  match validateAuth r with
  | some err => (err, db)
  | none =>
    match r.start_date with
    | none => (.missingFields, db)
    | some startD =>
      let (m, db2) := persistMembership db gid r startD now true
      (.success m,
       { db2 with
          waSent := db2.waSent ++ membershipSends db gid r waOk custSendOk ownerSendOk })

/-- The unauthenticated `POST /membership` handler (src/index.js): the
required-fields guard also covers `gym_owner_id`, there is no
payment-details guard and no messaging, and a start date strictly before
the existing end date of the customer is rejected with a warning before
any write. -/
def postMembershipUnauth (db : Db) (now : JsDate) (r : MembershipBody) :
    MembershipResp × Db :=
  if missingRequiredUnauth r then (.missingFields, db)
  else
    match r.start_date with
    | none => (.missingFields, db)
    | some startD =>
      let gid := bodyGymOwnerId r
      let warn :=
        match findCustomer db gid (jsAsString r.gym_id) with
        | none => false
        | some c =>
          match c.end_date with
          | none => false
          | some e => jsDateLt startD e
      if warn then (.startBeforeEndWarning, db)
      else
        let (m, db2) := persistMembership db gid r startD now false
        (.success m, db2)

/-! ## Store lemmas -/

theorem redisGet_set_self (s : RedisStore) (k : String) (v : RedisEntry) :
    redisGet (redisSet s k v) k = some v := by
  simp [redisGet, redisSet, List.find?]

theorem find?_filter_not_key (s : RedisStore) (k : String) :
    (s.filter (fun p => !(p.1 == k))).find? (fun p => p.1 == k) = none := by
  rw [List.find?_eq_none]
  intro p hp
  have h2 := (List.mem_filter.mp hp).2
  simp only [Bool.not_eq_true', beq_eq_false_iff_ne] at h2
  simp [h2]

theorem redisGet_del_self (s : RedisStore) (k : String) :
    redisGet (redisDel s k) k = none := by
  simp [redisGet, redisDel, find?_filter_not_key]

theorem redisSet_filter_length (s : RedisStore) (k : String) (v : RedisEntry) :
    ((redisSet s k v).filter (fun p => p.1 == k)).length = 1 := by
  have hnil : (s.filter (fun p => !(p.1 == k))).filter (fun p => p.1 == k) = [] := by
    rw [List.filter_eq_nil_iff]
    intro p hp
    have h2 := (List.mem_filter.mp hp).2
    simp only [Bool.not_eq_true', beq_eq_false_iff_ne] at h2
    simp [h2]
  simp [redisSet, List.filter, hnil]

/-! ## Session manager theorems (C4, C6) -/

theorem foldl_runInit_none_iff (steps : List InitStep) :
    ∀ acc, steps.foldl runInit acc = none ↔
      acc = none ∧ ∀ s ∈ steps, isSuccess s = false := by
  induction steps with
  | nil => intro acc; simp
  | cons s ss ih =>
    intro acc
    rw [List.foldl_cons, ih]
    cases s with
    | fails => simp [runInit, isSuccess]
    | succeeds k => simp [runInit, isSuccess]

/-- C4: on a `connection.update` event whose connection field is
"close", the handler schedules exactly one reconnect, after the fixed
3000 ms delay, when the disconnect status code is not the terminal
`loggedOut` reason, and schedules no reconnect at all when it is. -/
theorem onConnectionUpdate_reconnect_policy (u : ConnectionUpdate)
    (hClose : u.connection = some "close") :
    (u.statusCode ≠ some disconnectReasonLoggedOut →
      (onConnectionUpdate u).scheduledReconnects = [3000]) ∧
    (u.statusCode = some disconnectReasonLoggedOut →
      (onConnectionUpdate u).scheduledReconnects = []) := by
  constructor <;> intro h <;> simp [onConnectionUpdate, hClose, h]

/-- C4 witness: a close event with no status code schedules one
reconnect after 3000 ms, and a close event with the `loggedOut` code
schedules none. -/
theorem onConnectionUpdate_reconnect_policy_witness :
    (onConnectionUpdate ⟨some "close", none, none⟩).scheduledReconnects = [3000] ∧
    (onConnectionUpdate ⟨some "close", some 401, none⟩).scheduledReconnects = [] :=
  ⟨(onConnectionUpdate_reconnect_policy ⟨some "close", none, none⟩ rfl).1 (by decide),
   (onConnectionUpdate_reconnect_policy ⟨some "close", some 401, none⟩ rfl).2 rfl⟩

/-- C6: `getWhatsAppClient` fails (with the not-initialized error) if
and only if no `initializeWhatsAppClient` invocation in the history ever
completed successfully; otherwise it returns the current handle. -/
theorem getWhatsAppClient_error_iff_never_initialized (steps : List InitStep) :
    ((∃ e, getWhatsAppClient (runInits steps) = Except.error e) ↔
      ∀ s ∈ steps, isSuccess s = false) ∧
    ∀ c, runInits steps = some c →
      getWhatsAppClient (runInits steps) = Except.ok c := by
  constructor
  · have hiff := foldl_runInit_none_iff steps none
    simp only [true_and] at hiff
    constructor
    · intro ⟨e, he⟩
      rw [← hiff]
      cases hc : runInits steps with
      | none => exact hc
      | some c =>
        rw [hc] at he
        simp [getWhatsAppClient] at he
    · intro hall
      have hnone : runInits steps = none := hiff.mpr hall
      rw [hnone]
      exact ⟨"WhatsApp client is not initialized", rfl⟩
  · intro c hc
    rw [hc]
    rfl

/-- C6 witness: after a failed attempt followed by a successful one
assigning socket 7, `getWhatsAppClient` returns that handle. -/
theorem getWhatsAppClient_error_iff_never_initialized_witness :
    getWhatsAppClient (runInits [InitStep.fails, InitStep.succeeds 7]) = Except.ok 7 :=
  (getWhatsAppClient_error_iff_never_initialized
    [InitStep.fails, InitStep.succeeds 7]).2 7 (by decide)

/-! ## Address formation theorems (C7) -/

/-- C7 counterexample: at the owner-notification send site the raw
stored number is NOT passed through unchanged when it is already fully
qualified with the domain suffix; the site wraps unconditionally. -/
theorem ownerWaNumber_counterexample :
    ownerWaNumber "1234@s.whatsapp.net" ≠ "1234@s.whatsapp.net" := by decide

/-- C7 amended: only the customer-notification site checks the raw
value, passing it through whenever it contains the domain suffix as a
substring and wrapping it otherwise; the owner-notification and
OTP-delivery sites prepend the country code and append the suffix
unconditionally. -/
theorem waNumber_amended (p : String) :
    (strIncludes p "@s.whatsapp.net" = true → customerWaNumber p = p) ∧
    (strIncludes p "@s.whatsapp.net" = false →
      customerWaNumber p = "91" ++ p ++ "@s.whatsapp.net") ∧
    ownerWaNumber p = "91" ++ p ++ "@s.whatsapp.net" ∧
    otpDeliveryWaNumber p = "91" ++ p ++ "@s.whatsapp.net" := by
  refine ⟨fun h => ?_, fun h => ?_, rfl, rfl⟩ <;> simp [customerWaNumber, h]

/-- C7 amended witness: a bare ten-digit number is wrapped at the
customer site, and a fully qualified value is passed through there. -/
theorem waNumber_amended_witness :
    customerWaNumber "9876543210" = "91" ++ "9876543210" ++ "@s.whatsapp.net" ∧
    customerWaNumber "9876543210@s.whatsapp.net" = "9876543210@s.whatsapp.net" :=
  ⟨(waNumber_amended "9876543210").2.1 (by decide),
   (waNumber_amended "9876543210@s.whatsapp.net").1 (by decide)⟩

/-! ## OTP workflow theorems (C1, C2, C3, C5) -/

theorem owners_map_phone (l : List GymOwner) (gid : Nat) (np : String) :
    ∀ o ∈ l.map (fun o => if o.id == gid then { o with phone_number := np } else o),
      o.id = gid → o.phone_number = np := by
  intro o ho hid
  obtain ⟨o0, ho0, rfl⟩ := List.mem_map.mp ho
  by_cases h : (o0.id == gid) = true
  · simp [h]
  · rw [if_neg h] at hid ⊢
    simp [hid] at h

theorem requestPhoneChange_state (st : OtpState) (gid : Nat) (np : String)
    (r : ℚ) (ow : GymOwner)
    (hOwner : st.owners.find? (fun o => o.id == gid) = some ow)
    (hC : st.owners.find? (fun o => o.phone_number == np && !(o.id == gid)) = none) :
    (requestPhoneChange st gid np r).2.owners = st.owners ∧
    (requestPhoneChange st gid np r).2.waOk = st.waOk ∧
    (requestPhoneChange st gid np r).2.redis =
      redisSet st.redis (redisKey gid) ⟨⟨otpString r, np⟩, 10 * 60⟩ := by
  unfold requestPhoneChange
  rw [hOwner, hC]
  cases hwa : st.waOk <;> simp

theorem updatePhoneNumber_ok_state (st : OtpState) (gid : Nat)
    (entry : RedisEntry) (ow : GymOwner)
    (hGet : redisGet st.redis (redisKey gid) = some entry)
    (hOwner : st.owners.find? (fun o => o.id == gid) = some ow)
    (hWa : st.waOk = true) :
    updatePhoneNumber st gid entry.data.otp =
      (UpdateResult.ok { ow with phone_number := entry.data.new_phone_number },
       { st with
          owners := st.owners.map (fun o => if o.id == gid then
            { o with phone_number := entry.data.new_phone_number } else o)
          redis := redisDel st.redis (redisKey gid)
          sent := st.sent ++
            [(confirmationWaNumber entry.data.new_phone_number, confirmationText)] }) := by
  unfold updatePhoneNumber
  rw [hGet, hOwner, hWa]
  simp

/-- C1: with a live OTP record for the requester, validating with the
exactly matching code returns the owner row updated to the pending new
number, updates every owner row with the requester id, deletes the OTP
record, and delivers the confirmation to the new address; a second
validation with the same code then fails with the no-pending-request
error. -/
theorem updatePhoneNumber_correct_code_consumes (st : OtpState) (gid : Nat)
    (entry : RedisEntry) (ow : GymOwner)
    (hGet : redisGet st.redis (redisKey gid) = some entry)
    (hOwner : st.owners.find? (fun o => o.id == gid) = some ow)
    (hWa : st.waOk = true) :
    (updatePhoneNumber st gid entry.data.otp).1 =
      UpdateResult.ok { ow with phone_number := entry.data.new_phone_number } ∧
    (∀ o ∈ (updatePhoneNumber st gid entry.data.otp).2.owners,
      o.id = gid → o.phone_number = entry.data.new_phone_number) ∧
    redisGet (updatePhoneNumber st gid entry.data.otp).2.redis (redisKey gid) = none ∧
    (updatePhoneNumber st gid entry.data.otp).2.sent =
      st.sent ++ [(confirmationWaNumber entry.data.new_phone_number, confirmationText)] ∧
    (updatePhoneNumber (updatePhoneNumber st gid entry.data.otp).2
        gid entry.data.otp).1 = UpdateResult.noPending := by
  have hstep := updatePhoneNumber_ok_state st gid entry ow hGet hOwner hWa
  rw [hstep]
  refine ⟨rfl, owners_map_phone st.owners gid entry.data.new_phone_number,
    redisGet_del_self st.redis (redisKey gid), rfl, ?_⟩
  unfold updatePhoneNumber
  rw [show redisGet (redisDel st.redis (redisKey gid)) (redisKey gid) = none from
    redisGet_del_self st.redis (redisKey gid)]

/-- C1 witness: a concrete owner with a live OTP record for code
123456; validating with 123456 updates the number, removes the record,
confirms to the new address, and a repeat validation reports no pending
request. -/
theorem updatePhoneNumber_correct_code_consumes_witness :
    (updatePhoneNumber
        ⟨[⟨1, "Asha", "9876543210", "asha@example.com", "pw", "IronGym"⟩],
         [("otp:1", ⟨⟨"123456", "9998887777"⟩, 600⟩)], [], true⟩ 1 "123456").1 =
      UpdateResult.ok ⟨1, "Asha", "9998887777", "asha@example.com", "pw", "IronGym"⟩ ∧
    (∀ o ∈ (updatePhoneNumber
        ⟨[⟨1, "Asha", "9876543210", "asha@example.com", "pw", "IronGym"⟩],
         [("otp:1", ⟨⟨"123456", "9998887777"⟩, 600⟩)], [], true⟩ 1 "123456").2.owners,
      o.id = 1 → o.phone_number = "9998887777") ∧
    redisGet (updatePhoneNumber
        ⟨[⟨1, "Asha", "9876543210", "asha@example.com", "pw", "IronGym"⟩],
         [("otp:1", ⟨⟨"123456", "9998887777"⟩, 600⟩)], [], true⟩ 1 "123456").2.redis
      (redisKey 1) = none ∧
    (updatePhoneNumber
        ⟨[⟨1, "Asha", "9876543210", "asha@example.com", "pw", "IronGym"⟩],
         [("otp:1", ⟨⟨"123456", "9998887777"⟩, 600⟩)], [], true⟩ 1 "123456").2.sent =
      [] ++ [(confirmationWaNumber "9998887777", confirmationText)] ∧
    (updatePhoneNumber (updatePhoneNumber
        ⟨[⟨1, "Asha", "9876543210", "asha@example.com", "pw", "IronGym"⟩],
         [("otp:1", ⟨⟨"123456", "9998887777"⟩, 600⟩)], [], true⟩ 1 "123456").2
      1 "123456").1 = UpdateResult.noPending :=
  updatePhoneNumber_correct_code_consumes
    ⟨[⟨1, "Asha", "9876543210", "asha@example.com", "pw", "IronGym"⟩],
     [("otp:1", ⟨⟨"123456", "9998887777"⟩, 600⟩)], [], true⟩ 1
    ⟨⟨"123456", "9998887777"⟩, 600⟩
    ⟨1, "Asha", "9876543210", "asha@example.com", "pw", "IronGym"⟩
    (by decide) (by decide) rfl

/-- C2: with a live OTP record, validating with a non-matching code
fails with the invalid-code error and leaves the whole state — owner
rows, OTP record, message log — unchanged, so validating the correct
code on that same state still succeeds. -/
theorem updatePhoneNumber_wrong_code_keeps_record (st : OtpState) (gid : Nat)
    (entry : RedisEntry) (code : String)
    (hGet : redisGet st.redis (redisKey gid) = some entry)
    (hNe : code ≠ entry.data.otp) :
    updatePhoneNumber st gid code = (UpdateResult.invalidOtp, st) ∧
    ∀ ow, st.owners.find? (fun o => o.id == gid) = some ow → st.waOk = true →
      (updatePhoneNumber st gid entry.data.otp).1 =
        UpdateResult.ok { ow with phone_number := entry.data.new_phone_number } := by
  constructor
  · unfold updatePhoneNumber
    rw [hGet]
    simp [beq_eq_false_iff_ne, Ne.symm hNe]
  · intro ow hOwner hWa
    rw [updatePhoneNumber_ok_state st gid entry ow hGet hOwner hWa]

/-- C2 witness: submitting 111111 against stored code 123456 fails with
the invalid-code error and changes nothing; 123456 still succeeds. -/
theorem updatePhoneNumber_wrong_code_keeps_record_witness :
    updatePhoneNumber
        ⟨[⟨1, "Asha", "9876543210", "asha@example.com", "pw", "IronGym"⟩],
         [("otp:1", ⟨⟨"123456", "9998887777"⟩, 600⟩)], [], true⟩ 1 "111111" =
      (UpdateResult.invalidOtp,
       ⟨[⟨1, "Asha", "9876543210", "asha@example.com", "pw", "IronGym"⟩],
        [("otp:1", ⟨⟨"123456", "9998887777"⟩, 600⟩)], [], true⟩) ∧
    (updatePhoneNumber
        ⟨[⟨1, "Asha", "9876543210", "asha@example.com", "pw", "IronGym"⟩],
         [("otp:1", ⟨⟨"123456", "9998887777"⟩, 600⟩)], [], true⟩ 1 "123456").1 =
      UpdateResult.ok ⟨1, "Asha", "9998887777", "asha@example.com", "pw", "IronGym"⟩ :=
  have h := updatePhoneNumber_wrong_code_keeps_record
    ⟨[⟨1, "Asha", "9876543210", "asha@example.com", "pw", "IronGym"⟩],
     [("otp:1", ⟨⟨"123456", "9998887777"⟩, 600⟩)], [], true⟩ 1
    ⟨⟨"123456", "9998887777"⟩, 600⟩ "111111" (by decide) (by decide)
  ⟨h.1, h.2 ⟨1, "Asha", "9876543210", "asha@example.com", "pw", "IronGym"⟩
    (by decide) rfl⟩

/-- C3: a second issuance for the same requester before the first code
is consumed leaves exactly one record live, the second one, under the
single requester-scoped key; validating the first, now-stale, code then
fails. -/
theorem requestPhoneChange_overwrites_prior (st : OtpState) (gid : Nat)
    (np1 np2 : String) (r1 r2 : ℚ) (ow : GymOwner)
    (hOwner : st.owners.find? (fun o => o.id == gid) = some ow)
    (hC1 : st.owners.find? (fun o => o.phone_number == np1 && !(o.id == gid)) = none)
    (hC2 : st.owners.find? (fun o => o.phone_number == np2 && !(o.id == gid)) = none)
    (hNe : otpString r1 ≠ otpString r2) :
    redisGet (requestPhoneChange (requestPhoneChange st gid np1 r1).2
        gid np2 r2).2.redis (redisKey gid) =
      some ⟨⟨otpString r2, np2⟩, 10 * 60⟩ ∧
    (((requestPhoneChange (requestPhoneChange st gid np1 r1).2
        gid np2 r2).2.redis).filter (fun p => p.1 == redisKey gid)).length = 1 ∧
    (updatePhoneNumber (requestPhoneChange (requestPhoneChange st gid np1 r1).2
        gid np2 r2).2 gid (otpString r1)).1 = UpdateResult.invalidOtp := by
  obtain ⟨hOw1, hWa1, hRed1⟩ := requestPhoneChange_state st gid np1 r1 ow hOwner hC1
  have hOwner2 : (requestPhoneChange st gid np1 r1).2.owners.find?
      (fun o => o.id == gid) = some ow := by rw [hOw1]; exact hOwner
  have hC2b : (requestPhoneChange st gid np1 r1).2.owners.find?
      (fun o => o.phone_number == np2 && !(o.id == gid)) = none := by
    rw [hOw1]; exact hC2
  obtain ⟨hOw2, hWa2, hRed2⟩ :=
    requestPhoneChange_state (requestPhoneChange st gid np1 r1).2 gid np2 r2 ow
      hOwner2 hC2b
  have hGet2 : redisGet (requestPhoneChange (requestPhoneChange st gid np1 r1).2
      gid np2 r2).2.redis (redisKey gid) = some ⟨⟨otpString r2, np2⟩, 10 * 60⟩ := by
    rw [hRed2]
    exact redisGet_set_self _ _ _
  refine ⟨hGet2, ?_, ?_⟩
  · rw [hRed2]
    exact redisSet_filter_length _ _ _
  · unfold updatePhoneNumber
    rw [hGet2]
    simp [beq_eq_false_iff_ne, Ne.symm hNe]

/-- C3 witness: two issuances with random draws 0 and one third yield
the codes 100000 and 400000; after the second issuance exactly the
second record is live and the first code is rejected as invalid. -/
theorem requestPhoneChange_overwrites_prior_witness :
    redisGet (requestPhoneChange (requestPhoneChange
        ⟨[⟨1, "Asha", "9876543210", "asha@example.com", "pw", "IronGym"⟩],
         [], [], true⟩ 1 "9998887777" 0).2 1 "9991112222" (1/3 : ℚ)).2.redis
      (redisKey 1) = some ⟨⟨otpString (1/3 : ℚ), "9991112222"⟩, 10 * 60⟩ ∧
    (((requestPhoneChange (requestPhoneChange
        ⟨[⟨1, "Asha", "9876543210", "asha@example.com", "pw", "IronGym"⟩],
         [], [], true⟩ 1 "9998887777" 0).2 1 "9991112222" (1/3 : ℚ)).2.redis).filter
      (fun p => p.1 == redisKey 1)).length = 1 ∧
    (updatePhoneNumber (requestPhoneChange (requestPhoneChange
        ⟨[⟨1, "Asha", "9876543210", "asha@example.com", "pw", "IronGym"⟩],
         [], [], true⟩ 1 "9998887777" 0).2 1 "9991112222" (1/3 : ℚ)).2
      1 (otpString 0)).1 = UpdateResult.invalidOtp :=
  requestPhoneChange_overwrites_prior
    ⟨[⟨1, "Asha", "9876543210", "asha@example.com", "pw", "IronGym"⟩], [], [], true⟩
    1 "9998887777" "9991112222" 0 (1/3 : ℚ)
    ⟨1, "Asha", "9876543210", "asha@example.com", "pw", "IronGym"⟩
    (by decide) (by decide) (by decide)
    (by
      simp only [otpString]
      rw [show genOtp 0 = 100000 by norm_num [genOtp],
        show genOtp (1/3 : ℚ) = 400000 by norm_num [genOtp]]
      decide)

/-- C5: every issuance that reaches the code-generation step stores the
generated code and the pending new number under the requester-scoped
key with the fixed 600-second (ten-minute) expiry, and for every value
of the random draw in the unit interval the code value lies between
100000 and 999999 inclusive. -/
theorem requestPhoneChange_otp_range_and_store (st : OtpState) (gid : Nat)
    (np : String) (r : ℚ) (ow : GymOwner)
    (h0 : 0 ≤ r) (h1 : r < 1)
    (hOwner : st.owners.find? (fun o => o.id == gid) = some ow)
    (hC : st.owners.find? (fun o => o.phone_number == np && !(o.id == gid)) = none) :
    redisGet (requestPhoneChange st gid np r).2.redis (redisKey gid) =
      some ⟨⟨otpString r, np⟩, 10 * 60⟩ ∧
    100000 ≤ genOtp r ∧ genOtp r ≤ 999999 := by
  obtain ⟨-, -, hRed⟩ := requestPhoneChange_state st gid np r ow hOwner hC
  refine ⟨by rw [hRed]; exact redisGet_set_self _ _ _, ?_, ?_⟩
  · exact Int.le_floor.mpr (by push_cast; nlinarith)
  · have hlt : genOtp r < 1000000 := Int.floor_lt.mpr (by push_cast; nlinarith)
    omega

/-- C5 witness: with random draw one third the stored record carries
the generated code and pending number with the 600-second expiry, and
the code value is in range. -/
theorem requestPhoneChange_otp_range_and_store_witness :
    redisGet (requestPhoneChange
        ⟨[⟨1, "Asha", "9876543210", "asha@example.com", "pw", "IronGym"⟩],
         [], [], true⟩ 1 "9998887777" (1/3 : ℚ)).2.redis (redisKey 1) =
      some ⟨⟨otpString (1/3 : ℚ), "9998887777"⟩, 10 * 60⟩ ∧
    100000 ≤ genOtp (1/3 : ℚ) ∧ genOtp (1/3 : ℚ) ≤ 999999 :=
  requestPhoneChange_otp_range_and_store
    ⟨[⟨1, "Asha", "9876543210", "asha@example.com", "pw", "IronGym"⟩], [], [], true⟩
    1 "9998887777" (1/3 : ℚ)
    ⟨1, "Asha", "9876543210", "asha@example.com", "pw", "IronGym"⟩
    (by norm_num) (by norm_num) (by decide) (by decide)

/-! ## Membership route theorems (C8, C9, C10) -/

/-- C8: once validation passes, the authenticated membership route
responds with the success body for every combination of messaging
outcomes, and the persisted business records — owners, customers,
membership transactions — are identical across all combinations of
client availability and send failures. -/
theorem postMembership_success_despite_send_failures (db : Db) (now : JsDate)
    (gid : Nat) (r : MembershipBody) (startD : JsDate)
    (hVal : validateAuth r = none) (hSt : r.start_date = some startD) :
    ∀ wa cs os wa2 cs2 os2 : Bool,
      isSuccessResp (postMembership db now gid r wa cs os).1 = true ∧
      (postMembership db now gid r wa cs os).2.customers =
        (postMembership db now gid r wa2 cs2 os2).2.customers ∧
      (postMembership db now gid r wa cs os).2.memberships =
        (postMembership db now gid r wa2 cs2 os2).2.memberships ∧
      (postMembership db now gid r wa cs os).2.owners = db.owners := by
  intro wa cs os wa2 cs2 os2
  simp [postMembership, hVal, hSt, persistMembership, isSuccessResp]

/-- C8 witness: a concrete valid request persists the same records and
reports success both when every send works and when the client is down
and both sends fail. -/
theorem postMembership_success_despite_send_failures_witness :
    isSuccessResp (postMembership ⟨[], [], [], 1, []⟩ ⟨2025, 3, 10⟩ 1
      ⟨JSVal.num 1, JSVal.str "g1", JSVal.str "9876543210", JSVal.str "John",
       JSVal.num 3, some ⟨2025, 3, 1⟩, JSVal.str "cash", JSVal.num 1000,
       JSVal.str "cardio", JSVal.bool true, JSVal.undef⟩ true true true).1 = true ∧
    (postMembership ⟨[], [], [], 1, []⟩ ⟨2025, 3, 10⟩ 1
      ⟨JSVal.num 1, JSVal.str "g1", JSVal.str "9876543210", JSVal.str "John",
       JSVal.num 3, some ⟨2025, 3, 1⟩, JSVal.str "cash", JSVal.num 1000,
       JSVal.str "cardio", JSVal.bool true, JSVal.undef⟩ true true true).2.customers =
      (postMembership ⟨[], [], [], 1, []⟩ ⟨2025, 3, 10⟩ 1
        ⟨JSVal.num 1, JSVal.str "g1", JSVal.str "9876543210", JSVal.str "John",
         JSVal.num 3, some ⟨2025, 3, 1⟩, JSVal.str "cash", JSVal.num 1000,
         JSVal.str "cardio", JSVal.bool true, JSVal.undef⟩ false false false).2.customers ∧
    (postMembership ⟨[], [], [], 1, []⟩ ⟨2025, 3, 10⟩ 1
      ⟨JSVal.num 1, JSVal.str "g1", JSVal.str "9876543210", JSVal.str "John",
       JSVal.num 3, some ⟨2025, 3, 1⟩, JSVal.str "cash", JSVal.num 1000,
       JSVal.str "cardio", JSVal.bool true, JSVal.undef⟩ true true true).2.memberships =
      (postMembership ⟨[], [], [], 1, []⟩ ⟨2025, 3, 10⟩ 1
        ⟨JSVal.num 1, JSVal.str "g1", JSVal.str "9876543210", JSVal.str "John",
         JSVal.num 3, some ⟨2025, 3, 1⟩, JSVal.str "cash", JSVal.num 1000,
         JSVal.str "cardio", JSVal.bool true, JSVal.undef⟩ false false false).2.memberships ∧
    (postMembership ⟨[], [], [], 1, []⟩ ⟨2025, 3, 10⟩ 1
      ⟨JSVal.num 1, JSVal.str "g1", JSVal.str "9876543210", JSVal.str "John",
       JSVal.num 3, some ⟨2025, 3, 1⟩, JSVal.str "cash", JSVal.num 1000,
       JSVal.str "cardio", JSVal.bool true, JSVal.undef⟩ true true true).2.owners = [] :=
  postMembership_success_despite_send_failures ⟨[], [], [], 1, []⟩ ⟨2025, 3, 10⟩ 1
    ⟨JSVal.num 1, JSVal.str "g1", JSVal.str "9876543210", JSVal.str "John",
     JSVal.num 3, some ⟨2025, 3, 1⟩, JSVal.str "cash", JSVal.num 1000,
     JSVal.str "cardio", JSVal.bool true, JSVal.undef⟩ ⟨2025, 3, 1⟩
    (by decide) rfl true true true false false false

/-- C9: in both membership routes a request whose amount or duration
is present but falsy — the number 0, the empty string — is rejected
with the missing-required-fields error and the stores are untouched,
while a boolean false `personal_training` never affects the
required-fields guard. -/
theorem membership_falsy_required_fields_rejected (db : Db) (now : JsDate)
    (gid : Nat) (r : MembershipBody) (wa cs os : Bool)
    (hFalsy : truthy r.amount = false ∨ truthy r.duration = false) :
    postMembership db now gid r wa cs os = (MembershipResp.missingFields, db) ∧
    postMembershipUnauth db now r = (MembershipResp.missingFields, db) ∧
    ∀ r2 : MembershipBody,
      missingRequiredAuth { r2 with personal_training := JSVal.bool false } =
        missingRequiredAuth { r2 with personal_training := JSVal.bool true } := by
  have hmiss : missingRequiredAuth r = true := by
    rcases hFalsy with h | h <;> simp [missingRequiredAuth, h]
  refine ⟨?_, ?_, ?_⟩
  · simp [postMembership, validateAuth, hmiss]
  · simp [postMembershipUnauth, missingRequiredUnauth, hmiss]
  · intro r2
    have h1 : (JSVal.bool false == JSVal.undef) = false := rfl
    have h2 : (JSVal.bool true == JSVal.undef) = false := rfl
    simp [missingRequiredAuth, h1, h2]

/-- C9 witness: amount 0 with every other field present is rejected by
both routes without touching the store, and the guard treats a false
`personal_training` exactly like a true one. -/
theorem membership_falsy_required_fields_rejected_witness :
    postMembership ⟨[], [], [], 1, []⟩ ⟨2025, 3, 10⟩ 1
      ⟨JSVal.num 1, JSVal.str "g1", JSVal.str "9876543210", JSVal.str "John",
       JSVal.num 3, some ⟨2025, 3, 1⟩, JSVal.str "cash", JSVal.num 0,
       JSVal.str "cardio", JSVal.bool true, JSVal.undef⟩ true true true =
      (MembershipResp.missingFields, ⟨[], [], [], 1, []⟩) ∧
    postMembershipUnauth ⟨[], [], [], 1, []⟩ ⟨2025, 3, 10⟩
      ⟨JSVal.num 1, JSVal.str "g1", JSVal.str "9876543210", JSVal.str "John",
       JSVal.num 3, some ⟨2025, 3, 1⟩, JSVal.str "cash", JSVal.num 0,
       JSVal.str "cardio", JSVal.bool true, JSVal.undef⟩ =
      (MembershipResp.missingFields, ⟨[], [], [], 1, []⟩) ∧
    ∀ r2 : MembershipBody,
      missingRequiredAuth { r2 with personal_training := JSVal.bool false } =
        missingRequiredAuth { r2 with personal_training := JSVal.bool true } :=
  membership_falsy_required_fields_rejected ⟨[], [], [], 1, []⟩ ⟨2025, 3, 10⟩ 1
    ⟨JSVal.num 1, JSVal.str "g1", JSVal.str "9876543210", JSVal.str "John",
     JSVal.num 3, some ⟨2025, 3, 1⟩, JSVal.str "cash", JSVal.num 0,
     JSVal.str "cardio", JSVal.bool true, JSVal.undef⟩ true true true
    (Or.inl (by decide))

end GymBackend
